import Mathlib

/-!
Verification development for the frame-level multi-signal triage detector
(`yolo_detection.py`): geometry utilities, bleeding detection, lying-pose
classification, eye-closure classification and the per-frame status fuser.

The external ML models (YOLO person detector, MediaPipe pose and face mesh)
are oracles: their per-person outputs (raw box, pose landmarks, face
landmarks, red-mask contours) are inputs to the embedded functions.
Floating-point values of the source are modelled as real numbers, the
source's `1e-6` guards as the exact rational `1/1000000`.
-/

/-- A 2D point with real coordinates (a landmark's `.x`/`.y`). -/
structure Pt where
  x : ℝ
  y : ℝ

/-- The source's `1e-6` guard, as a rational (used in `detect_bleeding`). -/
def epsQ : ℚ := 1 / 1000000

/-- The source's `1e-6` guard, as a real (used in aspect ratio and EAR). -/
noncomputable def epsR : ℝ := 1 / 1000000

/-- Python `int()` on a real: truncation toward zero. -/
noncomputable def pyInt (r : ℝ) : ℤ :=
  if 0 ≤ r then ⌊r⌋ else ⌈r⌉

/-- One coordinate of `clamp_box`: `max(0, min(v, w-1))` on integers. -/
def clampZ (v w : ℤ) : ℤ :=
  max 0 (min v (w - 1))

/-- `clamp_box(x1,y1,x2,y2,w,h)`: each float coordinate is truncated with
`int()` and clamped independently to `[0, w-1]` resp. `[0, h-1]`. -/
noncomputable def clamp_box (x1 y1 x2 y2 : ℝ) (w h : ℤ) : ℤ × ℤ × ℤ × ℤ :=
  (clampZ (pyInt x1) w, clampZ (pyInt y1) h, clampZ (pyInt x2) w, clampZ (pyInt y2) h)

/-- `clamp_box` applied to an already-integer box (`clamp_box(*bleed_box, W, H)`:
`int()` is the identity on integers). -/
def clampBoxZ (b : ℤ × ℤ × ℤ × ℤ) (w h : ℤ) : ℤ × ℤ × ℤ × ℤ :=
  (clampZ b.1 w, clampZ b.2.1 h, clampZ b.2.2.1 w, clampZ b.2.2.2 h)

/-- An external contour of the cleaned red mask: its `cv2.contourArea` and its
`cv2.boundingRect` `(x, y, w, h)` in ROI-local pixel coordinates. -/
structure Contour where
  area : ℚ
  rx : ℤ
  ry : ℤ
  rw : ℤ
  rh : ℤ
deriving DecidableEq

/-- Python `max(cnts, key=cv2.contourArea)`: the first contour of maximal area
(a later contour replaces the current one only on strictly larger area). -/
def maxContour : List Contour → Option Contour
  | [] => none
  | c :: cs => some (cs.foldl (fun a b => if b.area > a.area then b else a) c)

/-- `detect_bleeding(frame, box)`: re-clamp the (integer) box, report not-found
on an empty ROI or an empty contour list, otherwise take the largest contour,
compare `contourArea / (rows*cols + 1e-6)` against the threshold and on success
return the contour's bounding rectangle translated to frame coordinates.
The red-mask/morphology pipeline is external; its contours are the input. -/
def detect_bleeding (W H : ℤ) (box : ℤ × ℤ × ℤ × ℤ) (cnts : List Contour)
    (bleed_min : ℚ) : Bool × Option (ℤ × ℤ × ℤ × ℤ) :=
  let x1 := clampZ box.1 W
  let y1 := clampZ box.2.1 H
  let x2 := clampZ box.2.2.1 W
  let y2 := clampZ box.2.2.2 H
  if x2 - x1 ≤ 0 ∨ y2 - y1 ≤ 0 then (false, none)
  else
    match maxContour cnts with
    | none => (false, none)
    | some cnt =>
      let area_ratio := cnt.area / ((((y2 - y1) * (x2 - x1) : ℤ) : ℚ) + epsQ)
      if area_ratio < bleed_min then (false, none)
      else (true, some (x1 + cnt.rx, y1 + cnt.ry, x1 + cnt.rx + cnt.rw, y1 + cnt.ry + cnt.rh))

/-- C-library `atan2(y, x)` on reals (what `math.atan2` computes). -/
noncomputable def atan2 (y x : ℝ) : ℝ :=
  if 0 < x then Real.arctan (y / x)
  else if x < 0 ∧ 0 ≤ y then Real.arctan (y / x) + Real.pi
  else if x < 0 ∧ y < 0 then Real.arctan (y / x) - Real.pi
  else if x = 0 ∧ 0 < y then Real.pi / 2
  else if x = 0 ∧ y < 0 then -(Real.pi / 2)
  else 0

/-- `math.degrees`: radians to degrees. -/
noncomputable def degrees (r : ℝ) : ℝ :=
  r * 180 / Real.pi

/-- `angle_between(p1, p2)`: degrees of `atan2(p2.y - p1.y, p2.x - p1.x)`. -/
noncomputable def angle_between (p1 p2 : Pt) : ℝ :=
  degrees (atan2 (p2.y - p1.y) (p2.x - p1.x))

/-- The four skeletal keypoints `is_unconscious_pose` reads; `none` models a
keypoint whose access raises (caught by the function's `try/except`). -/
structure PoseLandmarks where
  leftShoulder : Option Pt
  rightShoulder : Option Pt
  leftHip : Option Pt
  rightHip : Option Pt

/-- `is_unconscious_pose(landmarks, aspect_bbox)`: if any of the four keypoints
is unavailable, return `false`; otherwise lying iff the absolute angle of the
shoulder-midpoint → hip-midpoint vector is `< horiz_deg_thresh` or the box
aspect ratio is `> aspect_thresh`. -/
noncomputable def is_unconscious_pose (lm : PoseLandmarks) (aspect_bbox : ℝ)
    (horiz_deg_thresh aspect_thresh : ℝ) : Bool :=
  match lm.leftShoulder, lm.rightShoulder, lm.leftHip, lm.rightHip with
  | some lS, some rS, some lH, some rH =>
    let midS : Pt := ⟨(lS.x + rS.x) / 2, (lS.y + rS.y) / 2⟩
    let midH : Pt := ⟨(lH.x + rH.x) / 2, (lH.y + rH.y) / 2⟩
    let ang := |angle_between midS midH|
    decide (ang < horiz_deg_thresh) || decide (aspect_bbox > aspect_thresh)
  | _, _, _, _ => false

/-- `_euclid(p1, p2)`: `math.hypot` of the coordinate differences. -/
noncomputable def euclid (p q : ℝ × ℝ) : ℝ :=
  Real.sqrt ((p.1 - q.1) ^ 2 + (p.2 - q.2) ^ 2)

/-- The fixed left-eye contour landmark indices. -/
def LEFT_EYE : List ℕ := [33, 160, 158, 133, 153, 144]

/-- The fixed right-eye contour landmark indices. -/
def RIGHT_EYE : List ℕ := [263, 387, 385, 362, 380, 373]

/-- `eye_aspect_ratio(pts)` for the six ordered contour points:
`(d(p2,p6) + d(p3,p5)) / (2 * d(p1,p4) + 1e-6)`. The source unpacks exactly
six points (its callers always pass six); other lengths are unreachable and
mapped to 0. -/
noncomputable def eye_aspect_ratio (pts : List (ℝ × ℝ)) : ℝ :=
  match pts with
  | [p1, p2, p3, p4, p5, p6] =>
    (euclid p2 p6 + euclid p3 p5) / (2 * euclid p1 p4 + epsR)
  | _ => 0

/-- A face-mesh result: the number of landmarks and the landmark accessor
(normalized coordinates, index → point). -/
structure FaceMesh where
  count : ℕ
  lm : ℕ → Pt

/-- `pick(ids)` inside `eyes_closed_in_roi`: scale the chosen normalized
landmarks by the ROI width and height. -/
noncomputable def pickPts (f : FaceMesh) (w h : ℝ) (ids : List ℕ) : List (ℝ × ℝ) :=
  ids.map (fun i => ((f.lm i).x * w, (f.lm i).y * h))

/-- `eyes_closed_in_roi(roi)`: `false` on an empty ROI or when the face mesh
finds no face; otherwise closed iff the mean of the two eyes' aspect ratios is
strictly below the threshold. The face-mesh call is external; its result (or
`none`) is the input. -/
noncomputable def eyes_closed_in_roi (w h : ℤ) (faceRes : Option FaceMesh)
    (ear_thresh : ℝ) : Bool :=
  if w ≤ 0 ∨ h ≤ 0 then false
  else
    match faceRes with
    | none => false
    | some f =>
      let ear := (eye_aspect_ratio (pickPts f (w : ℝ) (h : ℝ) LEFT_EYE)
        + eye_aspect_ratio (pickPts f (w : ℝ) (h : ℝ) RIGHT_EYE)) / 2
      decide (ear < ear_thresh)

/-- `get_face_bbox_in_roi(roi)`: the truncated, ROI-clamped bounding box of all
face landmarks, or `none` on empty ROI, no face, or degenerate extent. (A face
mesh with zero landmarks is unreachable for the real model and mapped to
`none`.) -/
noncomputable def get_face_bbox_in_roi (w h : ℤ) (faceRes : Option FaceMesh) :
    Option (ℤ × ℤ × ℤ × ℤ) :=
  if w ≤ 0 ∨ h ≤ 0 then none
  else
    match faceRes with
    | none => none
    | some f =>
      match (List.range f.count).map (fun i => ((f.lm i).x * (w : ℝ), (f.lm i).y * (h : ℝ))) with
      | [] => none
      | q :: qs =>
        let mnx := (qs.map Prod.fst).foldl min q.1
        let mxx := (qs.map Prod.fst).foldl max q.1
        let mny := (qs.map Prod.snd).foldl min q.2
        let mxy := (qs.map Prod.snd).foldl max q.2
        let x1 := pyInt (max 0 mnx)
        let y1 := pyInt (max 0 mny)
        let x2 := pyInt (min ((w : ℝ) - 1) mxx)
        let y2 := pyInt (min ((h : ℝ) - 1) mxy)
        if x2 ≤ x1 ∨ y2 ≤ y1 then none else some (x1, y1, x2, y2)

/-- The configuration thresholds consumed by `process_frame` (defaults from
`DEFAULT_CFG`). -/
structure Cfg where
  bleedMin : ℚ
  earThr : ℝ
  lyAng : ℝ
  lyAr : ℝ
  showPersonBox : Bool

/-- The default configuration: `bleeding_min_area_ratio = 0.01`,
`ear_threshold = 0.25`, `lying_angle_deg = 30.0`, `lying_aspect_thresh = 1.02`,
`show_person_box = True`. -/
noncomputable def defaultCfg : Cfg :=
  ⟨1 / 100, 1 / 4, 30, 51 / 50, true⟩

/-- A detection record's status field. Every emitted record carries class
field "person"; the status distinguishes the three record kinds. -/
inductive Status where
  | person
  | unconscious
  | bleeding
deriving DecidableEq

/-- One emitted detection record: status and bounding box. -/
structure Detection where
  status : Status
  bbox : ℤ × ℤ × ℤ × ℤ
deriving DecidableEq

/-- The per-person oracle data `process_frame` consumes for one detected box:
the YOLO class id and raw float box, the pose result, the face-mesh result,
and the red-mask contours of the person's ROI. The three `Raises` flags model
the corresponding external call raising an exception. -/
structure PersonObs where
  cls : ℤ
  box : ℝ × ℝ × ℝ × ℝ
  poseRes : Option PoseLandmarks
  faceRes : Option FaceMesh
  bleedCnts : List Contour
  bleedRaises : Bool
  poseRaises : Bool
  faceRaises : Bool

/-- The clamped person box computed at the top of the per-person loop. -/
noncomputable def clampedBox (W H : ℤ) (p : PersonObs) : ℤ × ℤ × ℤ × ℤ :=
  clamp_box p.box.1 p.box.2.1 p.box.2.2.1 p.box.2.2.2 W H

/-- The per-person `unconscious` flag of `process_frame`: stays `false` on an
empty ROI; otherwise set by absent pose landmarks, by the lying-pose
classifier, or by closed eyes (monotonic OR). -/
noncomputable def unconscious_flag (W H : ℤ) (cfg : Cfg) (p : PersonObs) : Bool :=
  let cb := clampedBox W H p
  let wB := cb.2.2.1 - cb.1
  let hB := cb.2.2.2 - cb.2.1
  let aspect : ℝ := ((wB : ℝ) + epsR) / ((hB : ℝ) + epsR)
  if 0 < wB ∧ 0 < hB then
    (match p.poseRes with
      | none => true
      | some lms => is_unconscious_pose lms aspect cfg.lyAng cfg.lyAr)
    || eyes_closed_in_roi wB hB p.faceRes cfg.earThr
  else false

/-- The person/unconscious record `process_frame` appends for one person: the
face box when unconscious and a face was found, the full clamped box
otherwise; suppressed for a normal person when `show_person_box` is off. -/
noncomputable def statusRecords (W H : ℤ) (cfg : Cfg) (p : PersonObs) : List Detection :=
  let cb := clampedBox W H p
  if unconscious_flag W H cfg p then
    match get_face_bbox_in_roi (cb.2.2.1 - cb.1) (cb.2.2.2 - cb.2.1) p.faceRes with
    | some fb =>
      [⟨Status.unconscious,
        (cb.1 + fb.1, cb.2.1 + fb.2.1, cb.1 + fb.2.2.1, cb.2.1 + fb.2.2.2)⟩]
    | none => [⟨Status.unconscious, cb⟩]
  else if cfg.showPersonBox then [⟨Status.person, cb⟩] else []

/-- The bleeding record `process_frame` appends for one person when
`detect_bleeding` reports found: the contour's rectangle re-clamped to the
frame. -/
noncomputable def bleedRecords (W H : ℤ) (cfg : Cfg) (p : PersonObs) : List Detection :=
  match detect_bleeding W H (clampedBox W H p) p.bleedCnts cfg.bleedMin with
  | (true, some bb) => [⟨Status.bleeding, clampBoxZ bb W H⟩]
  | _ => []

/-- The detection records `process_frame` appends for one person: the
person/unconscious record followed by the bleeding record when bleeding was
found. -/
noncomputable def personRecords (W H : ℤ) (cfg : Cfg) (p : PersonObs) : List Detection :=
  statusRecords W H cfg p ++ bleedRecords W H cfg p

/-- `process_frame`: for each detected box in detector order, skip non-person
classes and append that person's records. -/
noncomputable def process_frame (W H : ℤ) (cfg : Cfg) : List PersonObs → List Detection
  | [] => []
  | p :: rest =>
    (if p.cls = 0 then personRecords W H cfg p else []) ++ process_frame W H cfg rest

/-- The ways a per-person external call can raise inside `process_frame`. -/
inductive FrameErr where
  | bleedExc
  | poseExc
  | faceExc
deriving DecidableEq

/-- Exception-aware semantics of the per-person loop body: `process_frame`
wraps no call in `try/except`, so a raising bleeding call, or a raising
pose/face-mesh call on a non-empty ROI, propagates. -/
noncomputable def personRecordsE (W H : ℤ) (cfg : Cfg) (p : PersonObs) :
    Except FrameErr (List Detection) :=
  let cb := clampedBox W H p
  let wB := cb.2.2.1 - cb.1
  let hB := cb.2.2.2 - cb.2.1
  if p.bleedRaises then Except.error FrameErr.bleedExc
  else if (0 < wB ∧ 0 < hB) ∧ p.poseRaises then Except.error FrameErr.poseExc
  else if (0 < wB ∧ 0 < hB) ∧ p.faceRaises then Except.error FrameErr.faceExc
  else Except.ok (personRecords W H cfg p)

/-- Exception-aware semantics of `process_frame`: an exception raised while
processing one person propagates and aborts the whole frame. -/
noncomputable def processFrameE (W H : ℤ) (cfg : Cfg) :
    List PersonObs → Except FrameErr (List Detection)
  | [] => Except.ok []
  | p :: rest =>
    if p.cls = 0 then
      match personRecordsE W H cfg p with
      | Except.error e => Except.error e
      | Except.ok ds =>
        match processFrameE W H cfg rest with
        | Except.error e => Except.error e
        | Except.ok rs => Except.ok (ds ++ rs)
    else processFrameE W H cfg rest

/-- Uniform scaling of a 2D point by a factor `k` (the operation quantified
over in the scale-invariance claim about `eye_aspect_ratio`). -/
noncomputable def scalePt (k : ℝ) (p : ℝ × ℝ) : ℝ × ℝ :=
  (k * p.1, k * p.2)

/-- Modelled from the spec's words, for comparison with the implementation:
the eye-aspect-ratio as a pure ratio of distances, without the `1e-6`
denominator guard the source adds. -/
noncomputable def eye_aspect_ratio_unguarded (pts : List (ℝ × ℝ)) : ℝ :=
  match pts with
  | [p1, p2, p3, p4, p5, p6] =>
    (euclid p2 p6 + euclid p3 p5) / (2 * euclid p1 p4)
  | _ => 0

/-- A concrete face mesh with open eyes used in the test scenarios: after
scaling by a 50 × 100 ROI each eye has vertical eyelid distances 10 and
horizontal corner distance 20, so each eye's aspect ratio is `20/(40+1e-6)`. -/
noncomputable def openEyesFace : FaceMesh :=
  ⟨478, fun i =>
    if i = 33 then ⟨1 / 10, 3 / 10⟩
    else if i = 160 then ⟨2 / 10, 35 / 100⟩
    else if i = 158 then ⟨3 / 10, 35 / 100⟩
    else if i = 133 then ⟨5 / 10, 3 / 10⟩
    else if i = 153 then ⟨3 / 10, 25 / 100⟩
    else if i = 144 then ⟨2 / 10, 25 / 100⟩
    else if i = 263 then ⟨5 / 10, 3 / 10⟩
    else if i = 387 then ⟨6 / 10, 35 / 100⟩
    else if i = 385 then ⟨7 / 10, 35 / 100⟩
    else if i = 362 then ⟨9 / 10, 3 / 10⟩
    else if i = 380 then ⟨7 / 10, 25 / 100⟩
    else if i = 373 then ⟨6 / 10, 25 / 100⟩
    else ⟨0, 0⟩⟩

/-- A concrete upright pose: vertical torso with shoulder midpoint
`(0.5, 0.2)` and hip midpoint `(0.5, 0.6)`. -/
noncomputable def uprightPose : PoseLandmarks :=
  ⟨some ⟨4 / 10, 2 / 10⟩, some ⟨6 / 10, 2 / 10⟩, some ⟨4 / 10, 6 / 10⟩, some ⟨6 / 10, 6 / 10⟩⟩

/-- Scenario C of the spec: one detected person with box `(50,20,100,120)` in
a 200 × 200 frame, upright pose, open eyes, and one red contour of area 100
(2 % of the 50 × 100 box). -/
noncomputable def scenarioC : PersonObs :=
  ⟨0, (50, 20, 100, 120), some uprightPose, some openEyesFace,
    [⟨100, 10, 10, 5, 5⟩], false, false, false⟩

/-- The default configuration with person boxes hidden
(`show_person_box = False`), all other thresholds unchanged. -/
noncomputable def noShowCfg : Cfg :=
  ⟨1 / 100, 1 / 4, 30, 51 / 50, false⟩

/-! ### Helper lemmas -/

theorem pyInt_intCast (n : ℤ) : pyInt (n : ℝ) = n := by
  unfold pyInt
  split_ifs <;> simp

theorem pyInt_mono {r s : ℝ} (h : r ≤ s) : pyInt r ≤ pyInt s := by
  unfold pyInt
  split_ifs with hr hs hs
  · exact Int.floor_le_floor h
  · exact absurd (hr.trans h) hs
  · have h1 : (⌈r⌉ : ℤ) ≤ 0 := by
      have := Int.ceil_le_ceil (α := ℝ) (le_of_not_le hr)
      simpa using this
    have h2 : (0 : ℤ) ≤ ⌊s⌋ := Int.floor_nonneg.mpr hs
    omega
  · exact Int.ceil_le_ceil h

theorem clampZ_nonneg (v w : ℤ) : 0 ≤ clampZ v w :=
  le_max_left 0 _

theorem clampZ_le (v w : ℤ) (hw : 1 ≤ w) : clampZ v w ≤ w - 1 :=
  max_le (by omega) (min_le_right _ _)

theorem clampZ_mono {u v : ℤ} (w : ℤ) (h : u ≤ v) : clampZ u w ≤ clampZ v w :=
  max_le_max le_rfl (min_le_min h le_rfl)

theorem clampZ_idem (v w : ℤ) : clampZ (clampZ v w) w = clampZ v w := by
  simp only [clampZ, min_def, max_def]
  split_ifs <;> omega

theorem clamp_box_intCast (a b c d w h : ℤ) :
    clamp_box (a : ℝ) (b : ℝ) (c : ℝ) (d : ℝ) w h =
      (clampZ a w, clampZ b h, clampZ c w, clampZ d h) := by
  simp [clamp_box, pyInt_intCast]

theorem detect_bleeding_of_empty (W H : ℤ) (box : ℤ × ℤ × ℤ × ℤ)
    (cnts : List Contour) (m : ℚ)
    (h : clampZ box.2.2.1 W - clampZ box.1 W ≤ 0 ∨
         clampZ box.2.2.2 H - clampZ box.2.1 H ≤ 0) :
    detect_bleeding W H box cnts m = (false, none) := by
  unfold detect_bleeding
  simp only [if_pos h]

theorem bleedRecords_status (W H : ℤ) (cfg : Cfg) (p : PersonObs) :
    ∀ d ∈ bleedRecords W H cfg p, d.status = Status.bleeding := by
  unfold bleedRecords
  rcases detect_bleeding W H (clampedBox W H p) p.bleedCnts cfg.bleedMin with ⟨tf, ob⟩
  rcases tf <;> rcases ob <;> simp

/-! ### Claim C2 -/

/-- C2 (counterexample): `clamp_box` clamps each coordinate independently and
does not reorder an inverted box: on input `(5, 0, 3, 0)` with `W = H = 10`
(so `W ≥ 1`, `H ≥ 1`) the output is `(5, 0, 3, 0)`, which violates
`x1' ≤ x2'`. -/
theorem C2_counterexample :
    (1 : ℤ) ≤ 10 ∧
    clamp_box 5 0 3 0 10 10 = (5, 0, 3, 0) ∧
    ¬((clamp_box 5 0 3 0 10 10).1 ≤ (clamp_box 5 0 3 0 10 10).2.2.1) := by
  have h : clamp_box 5 0 3 0 10 10 = (5, 0, 3, 0) := by
    rw [show (5 : ℝ) = ((5 : ℤ) : ℝ) by norm_num,
      show (0 : ℝ) = ((0 : ℤ) : ℝ) by norm_num,
      show (3 : ℝ) = ((3 : ℤ) : ℝ) by norm_num,
      clamp_box_intCast]
    decide
  refine ⟨by norm_num, h, ?_⟩
  rw [h]
  decide

/-- C2 (amended): for `W ≥ 1`, `H ≥ 1` every output coordinate of `clamp_box`
lies in `[0, W-1]` resp. `[0, H-1]`; the ordering half of the BoundingBox
invariant (`x1' ≤ x2'`, `y1' ≤ y2'`) holds whenever the input is not inverted
(`x1 ≤ x2`, `y1 ≤ y2`), clamping being monotone, but not for inverted input. -/
theorem C2_clamp_box_invariant (x1 y1 x2 y2 : ℝ) (w h : ℤ)
    (hw : 1 ≤ w) (hh : 1 ≤ h) :
    (0 ≤ (clamp_box x1 y1 x2 y2 w h).1 ∧ (clamp_box x1 y1 x2 y2 w h).1 ≤ w - 1) ∧
    (0 ≤ (clamp_box x1 y1 x2 y2 w h).2.1 ∧ (clamp_box x1 y1 x2 y2 w h).2.1 ≤ h - 1) ∧
    (0 ≤ (clamp_box x1 y1 x2 y2 w h).2.2.1 ∧ (clamp_box x1 y1 x2 y2 w h).2.2.1 ≤ w - 1) ∧
    (0 ≤ (clamp_box x1 y1 x2 y2 w h).2.2.2 ∧ (clamp_box x1 y1 x2 y2 w h).2.2.2 ≤ h - 1) ∧
    (x1 ≤ x2 → (clamp_box x1 y1 x2 y2 w h).1 ≤ (clamp_box x1 y1 x2 y2 w h).2.2.1) ∧
    (y1 ≤ y2 → (clamp_box x1 y1 x2 y2 w h).2.1 ≤ (clamp_box x1 y1 x2 y2 w h).2.2.2) := by
  simp only [clamp_box]
  exact ⟨⟨clampZ_nonneg _ _, clampZ_le _ _ hw⟩,
    ⟨clampZ_nonneg _ _, clampZ_le _ _ hh⟩,
    ⟨clampZ_nonneg _ _, clampZ_le _ _ hw⟩,
    ⟨clampZ_nonneg _ _, clampZ_le _ _ hh⟩,
    fun hx => clampZ_mono w (pyInt_mono hx),
    fun hy => clampZ_mono h (pyInt_mono hy)⟩

/-- C2 (witness): the amended invariant instantiated at the concrete
non-inverted box `(1, 2, 5, 6)` in a `10 × 10` frame. -/
theorem C2_witness :
    (0 ≤ (clamp_box 1 2 5 6 10 10).1 ∧ (clamp_box 1 2 5 6 10 10).1 ≤ 10 - 1) ∧
    (clamp_box 1 2 5 6 10 10).1 ≤ (clamp_box 1 2 5 6 10 10).2.2.1 :=
  ⟨(C2_clamp_box_invariant 1 2 5 6 10 10 (by norm_num) (by norm_num)).1,
    (C2_clamp_box_invariant 1 2 5 6 10 10 (by norm_num) (by norm_num)).2.2.2.2.1
      (by norm_num)⟩

/-! ### Claim C1 -/

/-- C1: in `process_frame`, a detected person whose clamped ROI is non-empty
and for whom pose estimation returns no landmarks has the unconscious flag set
and an emitted status record with status `unconscious` (first among the
person's records), for every eye-closure input and every bleeding input; the
only other possible records for that person are bleeding records. -/
theorem C1_no_landmarks_unconscious (W H : ℤ) (cfg : Cfg) (p : PersonObs)
    (hw : 0 < (clampedBox W H p).2.2.1 - (clampedBox W H p).1)
    (hh : 0 < (clampedBox W H p).2.2.2 - (clampedBox W H p).2.1)
    (hpose : p.poseRes = none) :
    unconscious_flag W H cfg p = true ∧
    ∃ b rest, personRecords W H cfg p = ⟨Status.unconscious, b⟩ :: rest ∧
      ∀ d ∈ rest, d.status = Status.bleeding := by
  have hflag : unconscious_flag W H cfg p = true := by
    unfold unconscious_flag
    rw [if_pos ⟨hw, hh⟩, hpose]
    simp
  refine ⟨hflag, ?_⟩
  rcases hfb : get_face_bbox_in_roi ((clampedBox W H p).2.2.1 - (clampedBox W H p).1)
      ((clampedBox W H p).2.2.2 - (clampedBox W H p).2.1) p.faceRes with _ | fb
  · exact ⟨clampedBox W H p, bleedRecords W H cfg p,
      by simp [personRecords, statusRecords, hflag, hfb],
      bleedRecords_status W H cfg p⟩
  · exact ⟨((clampedBox W H p).1 + fb.1, (clampedBox W H p).2.1 + fb.2.1,
      (clampedBox W H p).1 + fb.2.2.1, (clampedBox W H p).2.1 + fb.2.2.2),
      bleedRecords W H cfg p,
      by simp [personRecords, statusRecords, hflag, hfb],
      bleedRecords_status W H cfg p⟩

/-! ### Claim C9 -/

/-- C9: a detected person whose clamped box gives a zero-area ROI keeps the
unconscious flag `false` (pose, collapse and eye evaluations are gated on a
non-empty ROI), so with person boxes shown the person's only record has status
`person` — never `unconscious` — and no bleeding record is emitted either,
`detect_bleeding` reporting not-found on the same empty ROI. -/
theorem C9_empty_roi_person (W H : ℤ) (cfg : Cfg) (p : PersonObs)
    (hshow : cfg.showPersonBox = true)
    (hroi : (clampedBox W H p).2.2.1 - (clampedBox W H p).1 ≤ 0 ∨
            (clampedBox W H p).2.2.2 - (clampedBox W H p).2.1 ≤ 0) :
    unconscious_flag W H cfg p = false ∧
    personRecords W H cfg p = [⟨Status.person, clampedBox W H p⟩] := by
  have hflag : unconscious_flag W H cfg p = false := by
    unfold unconscious_flag
    rw [if_neg]
    omega
  have hbleed : detect_bleeding W H (clampedBox W H p) p.bleedCnts cfg.bleedMin
      = (false, none) := by
    apply detect_bleeding_of_empty
    have h1 : clampZ (clampedBox W H p).1 W = (clampedBox W H p).1 := by
      unfold clampedBox clamp_box
      exact clampZ_idem _ _
    have h2 : clampZ (clampedBox W H p).2.1 H = (clampedBox W H p).2.1 := by
      unfold clampedBox clamp_box
      exact clampZ_idem _ _
    have h3 : clampZ (clampedBox W H p).2.2.1 W = (clampedBox W H p).2.2.1 := by
      unfold clampedBox clamp_box
      exact clampZ_idem _ _
    have h4 : clampZ (clampedBox W H p).2.2.2 H = (clampedBox W H p).2.2.2 := by
      unfold clampedBox clamp_box
      exact clampZ_idem _ _
    rw [h1, h2, h3, h4]
    exact hroi
  refine ⟨hflag, ?_⟩
  unfold personRecords statusRecords bleedRecords
  rw [hflag, hbleed, hshow]
  simp

theorem atan2_zero_pos {y : ℝ} (hy : 0 < y) : atan2 y 0 = Real.pi / 2 := by
  simp [atan2, hy, lt_irrefl]

theorem atan2_pos_x (y : ℝ) {x : ℝ} (hx : 0 < x) : atan2 y x = Real.arctan (y / x) := by
  simp [atan2, hx]

theorem degrees_pi_div_two : degrees (Real.pi / 2) = 90 := by
  unfold degrees
  field_simp
  ring

theorem angle_between_vertical (p q : Pt) (hx : q.x = p.x) (hy : p.y < q.y) :
    angle_between p q = 90 := by
  unfold angle_between
  rw [hx, sub_self, atan2_zero_pos (by linarith), degrees_pi_div_two]

theorem angle_between_horizontal (p q : Pt) (hy : q.y = p.y) (hx : p.x < q.x) :
    angle_between p q = 0 := by
  unfold angle_between
  rw [hy, sub_self, atan2_pos_x _ (by linarith : (0 : ℝ) < q.x - p.x)]
  simp [degrees, Real.arctan_zero]

theorem euclid_horiz (a b c : ℝ) : euclid (a, b) (c, b) = |a - c| := by
  simp [euclid, Real.sqrt_sq_eq_abs]

theorem euclid_vert (a b d : ℝ) : euclid (a, b) (a, d) = |b - d| := by
  simp [euclid, Real.sqrt_sq_eq_abs]

theorem euclid_scale (k : ℝ) (hk : 0 ≤ k) (p q : ℝ × ℝ) :
    euclid (scalePt k p) (scalePt k q) = k * euclid p q := by
  simp only [euclid, scalePt]
  rw [show (k * p.1 - k * q.1) ^ 2 + (k * p.2 - k * q.2) ^ 2
      = k ^ 2 * ((p.1 - q.1) ^ 2 + (p.2 - q.2) ^ 2) by ring,
    Real.sqrt_mul (sq_nonneg k), Real.sqrt_sq hk]

theorem unconscious_flag_eval (W H : ℤ) (cfg : Cfg) (p : PersonObs)
    (x1 y1 x2 y2 : ℤ) (hcb : clampedBox W H p = (x1, y1, x2, y2))
    (hroi : 0 < x2 - x1 ∧ 0 < y2 - y1) :
    unconscious_flag W H cfg p =
      ((match p.poseRes with
        | none => true
        | some lms => is_unconscious_pose lms
            ((((x2 - x1 : ℤ) : ℝ) + epsR) / (((y2 - y1 : ℤ) : ℝ) + epsR)) cfg.lyAng cfg.lyAr)
        || eyes_closed_in_roi (x2 - x1) (y2 - y1) p.faceRes cfg.earThr) := by
  simp only [unconscious_flag, hcb]
  rw [if_pos hroi]

theorem personRecords_eval_normal (W H : ℤ) (cfg : Cfg) (p : PersonObs)
    (hflag : unconscious_flag W H cfg p = false) (hshow : cfg.showPersonBox = true) :
    personRecords W H cfg p = ⟨Status.person, clampedBox W H p⟩ :: bleedRecords W H cfg p := by
  simp only [personRecords, statusRecords, hflag, hshow]
  simp

theorem personRecords_eval_hidden (W H : ℤ) (cfg : Cfg) (p : PersonObs)
    (hflag : unconscious_flag W H cfg p = false) (hshow : cfg.showPersonBox = false) :
    personRecords W H cfg p = bleedRecords W H cfg p := by
  simp only [personRecords, statusRecords, hflag, hshow]
  simp

theorem bleedRecords_eval (W H : ℤ) (cfg : Cfg) (p : PersonObs) (bb : ℤ × ℤ × ℤ × ℤ)
    (hbl : detect_bleeding W H (clampedBox W H p) p.bleedCnts cfg.bleedMin = (true, some bb)) :
    bleedRecords W H cfg p = [⟨Status.bleeding, clampBoxZ bb W H⟩] := by
  simp only [bleedRecords, hbl]

theorem unconscious_flag_congr (W H : ℤ) (cfg cfg2 : Cfg) (p : PersonObs)
    (h1 : cfg2.earThr = cfg.earThr) (h2 : cfg2.lyAng = cfg.lyAng)
    (h3 : cfg2.lyAr = cfg.lyAr) :
    unconscious_flag W H cfg2 p = unconscious_flag W H cfg p := by
  unfold unconscious_flag
  rw [h1, h2, h3]

theorem bleedRecords_congr (W H : ℤ) (cfg cfg2 : Cfg) (p : PersonObs)
    (h1 : cfg2.bleedMin = cfg.bleedMin) :
    bleedRecords W H cfg2 p = bleedRecords W H cfg p := by
  unfold bleedRecords
  rw [h1]

theorem scenarioC_clamped : clampedBox 200 200 scenarioC = (50, 20, 100, 120) := by
  show clamp_box 50 20 100 120 200 200 = (50, 20, 100, 120)
  rw [show (50 : ℝ) = ((50 : ℤ) : ℝ) by norm_num,
    show (20 : ℝ) = ((20 : ℤ) : ℝ) by norm_num,
    show (100 : ℝ) = ((100 : ℤ) : ℝ) by norm_num,
    show (120 : ℝ) = ((120 : ℤ) : ℝ) by norm_num,
    clamp_box_intCast]
  decide

theorem uprightPose_eval (aspect : ℝ) (ha : ¬ aspect > 51 / 50) :
    is_unconscious_pose uprightPose aspect 30 (51 / 50) = false := by
  simp only [is_unconscious_pose, uprightPose]
  rw [angle_between_vertical ⟨((4 : ℝ) / 10 + 6 / 10) / 2, ((2 : ℝ) / 10 + 2 / 10) / 2⟩
    ⟨((4 : ℝ) / 10 + 6 / 10) / 2, ((6 : ℝ) / 10 + 6 / 10) / 2⟩ rfl (by norm_num)]
  rw [decide_eq_false (by rw [abs_of_nonneg] <;> norm_num : ¬ |(90 : ℝ)| < 30),
    decide_eq_false ha]
  rfl

theorem openEyesFace_eval : eyes_closed_in_roi 50 100 (some openEyesFace) (1 / 4) = false := by
  have hL : pickPts openEyesFace ((50 : ℤ) : ℝ) ((100 : ℤ) : ℝ) LEFT_EYE =
      [(5, 30), (10, 35), (15, 35), (25, 30), (15, 25), (10, 25)] := by
    norm_num [pickPts, LEFT_EYE, openEyesFace]
  have hR : pickPts openEyesFace ((50 : ℤ) : ℝ) ((100 : ℤ) : ℝ) RIGHT_EYE =
      [(25, 30), (30, 35), (35, 35), (45, 30), (35, 25), (30, 25)] := by
    norm_num [pickPts, RIGHT_EYE, openEyesFace]
  have eL : eye_aspect_ratio [((5 : ℝ), (30 : ℝ)), (10, 35), (15, 35), (25, 30), (15, 25), (10, 25)]
      = 20 / (40 + epsR) := by
    simp only [eye_aspect_ratio]
    rw [euclid_vert, euclid_vert, euclid_horiz]
    rw [show |(35 : ℝ) - 25| = 10 by rw [abs_of_nonneg] <;> norm_num,
      show |(5 : ℝ) - 25| = 20 by rw [abs_of_nonpos] <;> norm_num]
    norm_num
  have eR : eye_aspect_ratio [((25 : ℝ), (30 : ℝ)), (30, 35), (35, 35), (45, 30), (35, 25), (30, 25)]
      = 20 / (40 + epsR) := by
    simp only [eye_aspect_ratio]
    rw [euclid_vert, euclid_vert, euclid_horiz]
    rw [show |(35 : ℝ) - 25| = 10 by rw [abs_of_nonneg] <;> norm_num,
      show |(25 : ℝ) - 45| = 20 by rw [abs_of_nonpos] <;> norm_num]
    norm_num
  unfold eyes_closed_in_roi
  rw [if_neg (by omega)]
  simp only [hL, hR, eL, eR]
  rw [decide_eq_false]
  rw [epsR]
  rw [not_lt, le_div_iff₀ (by norm_num), div_add_div_same]
  norm_num

theorem scenarioC_aspect_small :
    ¬ (((50 : ℤ) : ℝ) + epsR) / (((100 : ℤ) : ℝ) + epsR) > 51 / 50 := by
  rw [not_lt, epsR]
  push_cast
  rw [div_le_div_iff₀] <;> norm_num

theorem scenarioC_flag : unconscious_flag 200 200 defaultCfg scenarioC = false := by
  have h := unconscious_flag_eval 200 200 defaultCfg scenarioC 50 20 100 120
    scenarioC_clamped (by decide)
  rw [show ((100 : ℤ) - 50) = 50 by decide, show ((120 : ℤ) - 20) = 100 by decide] at h
  rw [h]
  show (is_unconscious_pose uprightPose ((((50 : ℤ) : ℝ) + epsR) / (((100 : ℤ) : ℝ) + epsR))
      defaultCfg.lyAng defaultCfg.lyAr
    || eyes_closed_in_roi 50 100 (some openEyesFace) defaultCfg.earThr) = false
  rw [show defaultCfg.lyAng = 30 from rfl, show defaultCfg.lyAr = 51 / 50 from rfl,
    show defaultCfg.earThr = 1 / 4 from rfl,
    uprightPose_eval _ scenarioC_aspect_small, openEyesFace_eval]
  rfl

theorem detect_bleeding_single (W H : ℤ) (box : ℤ × ℤ × ℤ × ℤ) (x1 y1 x2 y2 : ℤ)
    (c : Contour) (m : ℚ)
    (hx1 : clampZ box.1 W = x1) (hy1 : clampZ box.2.1 H = y1)
    (hx2 : clampZ box.2.2.1 W = x2) (hy2 : clampZ box.2.2.2 H = y2)
    (h1 : 0 < x2 - x1) (h2 : 0 < y2 - y1)
    (h3 : ¬ c.area / ((((y2 - y1) * (x2 - x1) : ℤ) : ℚ) + epsQ) < m) :
    detect_bleeding W H box [c] m =
      (true, some (x1 + c.rx, y1 + c.ry, x1 + c.rx + c.rw, y1 + c.ry + c.rh)) := by
  simp only [detect_bleeding, maxContour, List.foldl_nil, hx1, hy1, hx2, hy2]
  rw [if_neg (by omega), if_neg h3]

theorem scenarioC_bleed : detect_bleeding 200 200 (clampedBox 200 200 scenarioC)
    scenarioC.bleedCnts defaultCfg.bleedMin = (true, some (60, 30, 65, 35)) := by
  rw [scenarioC_clamped]
  show detect_bleeding 200 200 (50, 20, 100, 120) [⟨100, 10, 10, 5, 5⟩] (1 / 100) = _
  rw [detect_bleeding_single 200 200 (50, 20, 100, 120) 50 20 100 120 ⟨100, 10, 10, 5, 5⟩
    (1 / 100) (by decide) (by decide) (by decide) (by decide) (by decide) (by decide)
    (by norm_num [epsQ])]
  decide

theorem scenarioC_records : process_frame 200 200 defaultCfg [scenarioC] =
    [⟨Status.person, (50, 20, 100, 120)⟩, ⟨Status.bleeding, (60, 30, 65, 35)⟩] := by
  simp only [process_frame]
  rw [if_pos (show scenarioC.cls = 0 from rfl),
    personRecords_eval_normal _ _ _ _ scenarioC_flag rfl,
    bleedRecords_eval _ _ _ _ _ scenarioC_bleed, scenarioC_clamped,
    show clampBoxZ (60, 30, 65, 35) 200 200 = (60, 30, 65, 35) by decide]
  rfl

/-! ### Claim C5 -/

/-- C5: with all four torso keypoints available, `is_unconscious_pose` reports
lying iff the absolute shoulder-midpoint → hip-midpoint angle is strictly below
the angle threshold or the box aspect ratio strictly exceeds the aspect
threshold; with any keypoint unavailable it reports `false`; a horizontal torso
(angle 0°) with aspect ratio 1 classifies as lying at the default thresholds,
and a vertical torso (angle 90°) with aspect ratio 1/2 as not-lying. -/
theorem C5_is_unconscious_pose_spec :
    (∀ (lS rS lH rH : Pt) (aspect a t : ℝ),
      is_unconscious_pose ⟨some lS, some rS, some lH, some rH⟩ aspect a t = true ↔
        (|angle_between ⟨(lS.x + rS.x) / 2, (lS.y + rS.y) / 2⟩
            ⟨(lH.x + rH.x) / 2, (lH.y + rH.y) / 2⟩| < a ∨ aspect > t)) ∧
    (∀ (lm : PoseLandmarks) (aspect a t : ℝ),
      lm.leftShoulder = none ∨ lm.rightShoulder = none ∨
        lm.leftHip = none ∨ lm.rightHip = none →
      is_unconscious_pose lm aspect a t = false) ∧
    is_unconscious_pose ⟨some ⟨0, 0⟩, some ⟨0, 0⟩, some ⟨1, 0⟩, some ⟨1, 0⟩⟩ 1 30 (51 / 50)
      = true ∧
    is_unconscious_pose ⟨some ⟨0, 0⟩, some ⟨0, 0⟩, some ⟨0, 1⟩, some ⟨0, 1⟩⟩ (1 / 2) 30 (51 / 50)
      = false := by
  refine ⟨?_, ?_, ?_, ?_⟩
  · intro lS rS lH rH aspect a t
    simp [is_unconscious_pose]
  · intro lm aspect a t h
    obtain ⟨s1, s2, s3, s4⟩ := lm
    rcases s1 with _ | q1 <;> rcases s2 with _ | q2 <;> rcases s3 with _ | q3 <;>
      rcases s4 with _ | q4 <;> (simp [is_unconscious_pose]; try simp at h)
  · simp only [is_unconscious_pose, angle_between]
    norm_num
    rw [atan2_pos_x 0 one_pos]
    norm_num [degrees, Real.arctan_zero]
  · apply Bool.eq_false_iff.mpr
    intro hcon
    simp only [is_unconscious_pose, angle_between] at hcon
    norm_num at hcon
    rw [atan2_zero_pos one_pos, degrees_pi_div_two] at hcon
    rw [abs_of_nonneg (by norm_num)] at hcon
    norm_num at hcon

/-- C5 (witness): the missing-keypoint clause at a concrete landmark set. -/
theorem C5_witness :
    is_unconscious_pose ⟨none, none, none, none⟩ 1 30 (51 / 50) = false :=
  C5_is_unconscious_pose_spec.2.1 ⟨none, none, none, none⟩ 1 30 (51 / 50) (Or.inl rfl)

/-! ### Claim C4 -/

/-- C4: for a non-empty ROI in which the face mesh found a face,
`eyes_closed_in_roi` reports closed iff the mean over the two eyes of the
eye-aspect-ratio — per eye, the sum of the two vertical eyelid distances over
twice the horizontal corner distance with the `1e-6` guard, computed from the
fixed ordered six contour landmarks scaled to the ROI — is strictly below the
threshold; with no face found it reports `false`. -/
theorem C4_eyes_closed_spec (w h : ℤ) (f : FaceMesh) (ear_thresh : ℝ)
    (hw : 0 < w) (hh : 0 < h) :
    (eyes_closed_in_roi w h (some f) ear_thresh = true ↔
      ((euclid ((f.lm 160).x * (w : ℝ), (f.lm 160).y * (h : ℝ))
            ((f.lm 144).x * (w : ℝ), (f.lm 144).y * (h : ℝ))
          + euclid ((f.lm 158).x * (w : ℝ), (f.lm 158).y * (h : ℝ))
            ((f.lm 153).x * (w : ℝ), (f.lm 153).y * (h : ℝ)))
        / (2 * euclid ((f.lm 33).x * (w : ℝ), (f.lm 33).y * (h : ℝ))
            ((f.lm 133).x * (w : ℝ), (f.lm 133).y * (h : ℝ)) + epsR)
        + (euclid ((f.lm 387).x * (w : ℝ), (f.lm 387).y * (h : ℝ))
            ((f.lm 373).x * (w : ℝ), (f.lm 373).y * (h : ℝ))
          + euclid ((f.lm 385).x * (w : ℝ), (f.lm 385).y * (h : ℝ))
            ((f.lm 380).x * (w : ℝ), (f.lm 380).y * (h : ℝ)))
        / (2 * euclid ((f.lm 263).x * (w : ℝ), (f.lm 263).y * (h : ℝ))
            ((f.lm 362).x * (w : ℝ), (f.lm 362).y * (h : ℝ)) + epsR)) / 2
      < ear_thresh) ∧
    eyes_closed_in_roi w h none ear_thresh = false := by
  constructor
  · unfold eyes_closed_in_roi
    rw [if_neg (by omega)]
    simp only [pickPts, LEFT_EYE, RIGHT_EYE, List.map_cons, List.map_nil, eye_aspect_ratio,
      decide_eq_true_eq]
  · unfold eyes_closed_in_roi
    rw [if_neg (by omega)]

/-- C4 (witness): the no-face clause at a concrete non-empty ROI. -/
theorem C4_witness : eyes_closed_in_roi 50 100 none (1 / 4) = false :=
  (C4_eyes_closed_spec 50 100 openEyesFace (1 / 4) (by decide) (by decide)).2

/-! ### Claim C8 -/

/-- C8 (counterexample): scaling all six eye landmarks by the factor 2 changes
the implemented eye-aspect-ratio, because the `1e-6` denominator guard does not
scale: the value moves from `1/(2 + 1e-6)` to `2/(4 + 1e-6)`. -/
theorem C8_counterexample :
    (0 : ℝ) < 2 ∧
    eye_aspect_ratio
        ([((1 : ℝ), (2 : ℝ)), (1, 2), (1, 2), (2, 2), (1, 2), (1, 3)].map (scalePt 2))
      ≠ eye_aspect_ratio [((1 : ℝ), (2 : ℝ)), (1, 2), (1, 2), (2, 2), (1, 2), (1, 3)] := by
  refine ⟨by norm_num, ?_⟩
  simp only [List.map_cons, List.map_nil, scalePt, eye_aspect_ratio]
  norm_num [euclid_vert, euclid_horiz, epsR]

/-- C8 (amended): the pure ratio of distances — the eye-aspect-ratio without
the `1e-6` denominator guard — is exactly invariant under uniform scaling by
any `k > 0`; the implemented `eye_aspect_ratio` scales the numerator and the
distance part of the denominator by `k` while the guard stays fixed, giving
`(d26+d35)·k / (2·k·d14 + 1e-6)`, which in general differs from the unscaled
value. -/
theorem C8_scale_invariance (p1 p2 p3 p4 p5 p6 : ℝ × ℝ) (k : ℝ) (hk : 0 < k) :
    eye_aspect_ratio_unguarded ([p1, p2, p3, p4, p5, p6].map (scalePt k)) =
      eye_aspect_ratio_unguarded [p1, p2, p3, p4, p5, p6] ∧
    eye_aspect_ratio ([p1, p2, p3, p4, p5, p6].map (scalePt k)) =
      (euclid p2 p6 + euclid p3 p5) * k / (2 * k * euclid p1 p4 + epsR) := by
  have hsc : ∀ p q : ℝ × ℝ, euclid (scalePt k p) (scalePt k q) = k * euclid p q :=
    euclid_scale k hk.le
  constructor
  · simp only [List.map_cons, List.map_nil, eye_aspect_ratio_unguarded, hsc]
    rcases eq_or_ne (euclid p1 p4) 0 with h0 | h0
    · simp [h0]
    · field_simp
      ring
  · simp only [List.map_cons, List.map_nil, eye_aspect_ratio, hsc]
    ring

/-- C8 (witness): the unguarded ratio's invariance at the concrete landmark
set and scale factor of the counterexample. -/
theorem C8_witness :
    eye_aspect_ratio_unguarded
        ([((1 : ℝ), (2 : ℝ)), (1, 2), (1, 2), (2, 2), (1, 2), (1, 3)].map (scalePt 2)) =
      eye_aspect_ratio_unguarded [((1 : ℝ), (2 : ℝ)), (1, 2), (1, 2), (2, 2), (1, 2), (1, 3)] :=
  (C8_scale_invariance _ _ _ _ _ _ 2 (by norm_num)).1

/-! ### Claim C6 -/

/-- C6 (counterexample): with a 10 × 10 clamped ROI (100 pixels) and a single
contour of area 1, the claim's criterion `area / pixels ≥ 0.01` holds with
equality, yet `detect_bleeding` reports not-found, because the code divides by
`pixels + 1e-6`, pushing the ratio strictly below the threshold. -/
theorem C6_counterexample :
    detect_bleeding 20 20 (0, 0, 10, 10) [⟨1, 0, 0, 1, 1⟩] (1 / 100) = (false, none) ∧
    (⟨1, 0, 0, 1, 1⟩ : Contour).area / (((10 - 0) * (10 - 0) : ℤ) : ℚ) ≥ 1 / 100 := by
  constructor
  · simp only [detect_bleeding, maxContour, List.foldl_nil]
    rw [show clampZ (0 : ℤ) 20 = 0 from by decide, show clampZ (10 : ℤ) 20 = 10 from by decide]
    rw [if_neg (by decide)]
    rw [if_pos (by push_cast [epsQ]; norm_num)]
  · push_cast
    norm_num

/-- C6 (amended): `detect_bleeding` returns `(false, none)` whenever the
clamped ROI has zero area or the contour list is empty; otherwise, with
`cnt` the selected maximal contour, it reports found iff
`cnt.area / (pixels + 1e-6) ≥ bleeding_min_area_ratio` — the `1e-6` guard sits
in the denominator — and on found returns the contour's rectangle translated
to frame coordinates. -/
theorem C6_detect_bleeding_spec (W H : ℤ) (box : ℤ × ℤ × ℤ × ℤ)
    (cnts : List Contour) (m : ℚ) :
    (clampZ box.2.2.1 W - clampZ box.1 W ≤ 0 ∨ clampZ box.2.2.2 H - clampZ box.2.1 H ≤ 0 →
      detect_bleeding W H box cnts m = (false, none)) ∧
    (cnts = [] → detect_bleeding W H box cnts m = (false, none)) ∧
    (∀ cnt, 0 < clampZ box.2.2.1 W - clampZ box.1 W →
      0 < clampZ box.2.2.2 H - clampZ box.2.1 H →
      maxContour cnts = some cnt →
      detect_bleeding W H box cnts m =
        if cnt.area / ((((clampZ box.2.2.2 H - clampZ box.2.1 H) *
            (clampZ box.2.2.1 W - clampZ box.1 W) : ℤ) : ℚ) + epsQ) < m
        then (false, none)
        else (true, some (clampZ box.1 W + cnt.rx, clampZ box.2.1 H + cnt.ry,
          clampZ box.1 W + cnt.rx + cnt.rw, clampZ box.2.1 H + cnt.ry + cnt.rh))) := by
  refine ⟨detect_bleeding_of_empty W H box cnts m, ?_, ?_⟩
  · rintro rfl
    simp only [detect_bleeding, maxContour]
    split_ifs <;> rfl
  · intro cnt h1 h2 hmax
    simp only [detect_bleeding, hmax]
    rw [if_neg (by omega)]

/-- C6 (witness): the empty-contour clause of the amended statement at a
concrete non-degenerate box. -/
theorem C6_witness : detect_bleeding 20 20 (0, 0, 10, 10) [] (1 / 100) = (false, none) :=
  (C6_detect_bleeding_spec 20 20 (0, 0, 10, 10) [] (1 / 100)).2.1 rfl

/-! ### Claim C3 -/

/-- C3 (counterexample): with two detected persons where the bleeding-detector
call raises for the first, the frame run aborts with that exception and no
detection list is produced at all — in particular the second person's records
are not produced, contradicting the claim that the remaining persons still
complete. -/
theorem C3_counterexample :
    processFrameE 100 100 defaultCfg
      [⟨0, (0, 0, 10, 10), none, none, [], true, false, false⟩,
        ⟨0, (20, 20, 40, 40), none, none, [], false, false, false⟩]
      = Except.error FrameErr.bleedExc := by
  rfl

/-- C3 (amended): classifier failures that surface as "no result" (no pose
landmarks, no face, no contours, empty ROI) fall back to that signal's safe
default inside the total per-person semantics, so processing of all signals
and all persons completes: with no raising call the exception-aware run
returns exactly the total run's records. An exception actually raised inside a
classifier call, however, propagates — `process_frame` installs no per-person
handler — and aborts the whole frame, e.g. a raising bleeding call for the
first person of class 0. -/
theorem C3_exception_semantics (W H : ℤ) (cfg : Cfg) :
    (∀ ps : List PersonObs,
      (∀ p ∈ ps, p.bleedRaises = false ∧ p.poseRaises = false ∧ p.faceRaises = false) →
      processFrameE W H cfg ps = Except.ok (process_frame W H cfg ps)) ∧
    (∀ (p : PersonObs) (rest : List PersonObs), p.cls = 0 → p.bleedRaises = true →
      processFrameE W H cfg (p :: rest) = Except.error FrameErr.bleedExc) := by
  constructor
  · intro ps hps
    induction ps with
    | nil => rfl
    | cons p rest ih =>
      obtain ⟨hb, hp, hf⟩ := hps p (List.mem_cons_self p rest)
      have ihr := ih fun q hq => hps q (List.mem_cons_of_mem p hq)
      have hpe : personRecordsE W H cfg p = Except.ok (personRecords W H cfg p) := by
        simp only [personRecordsE, hb, hp, hf]
        simp
      by_cases hc : p.cls = 0
      · simp [processFrameE, process_frame, hc, hpe, ihr]
      · simp [processFrameE, process_frame, hc, ihr]
  · intro p rest hc hb
    simp only [processFrameE, personRecordsE, hb, hc]
    simp

/-- C3 (witness): the no-raise clause at a concrete one-person frame. -/
theorem C3_witness :
    processFrameE 100 100 defaultCfg
        [⟨0, (0, 0, 10, 10), none, none, [], false, false, false⟩]
      = Except.ok (process_frame 100 100 defaultCfg
        [⟨0, (0, 0, 10, 10), none, none, [], false, false, false⟩]) :=
  (C3_exception_semantics 100 100 defaultCfg).1 _ (by simp)

/-! ### Claim C7 -/

/-- C7: with person boxes shown, a person for whom `detect_bleeding` reports
found gets exactly two records — the person/unconscious record immediately
followed by the bleeding record with the re-clamped contour box; the frame's
records are the concatenation of per-person records in detector order; and
scenario C (one upright, open-eyed person with a 2 % red contour) yields
exactly the two records person(full box) and bleeding(contour box). -/
theorem C7_bleeding_record_appended (W H : ℤ) (cfg : Cfg) :
    (∀ (p : PersonObs) (bb : ℤ × ℤ × ℤ × ℤ),
      cfg.showPersonBox = true →
      detect_bleeding W H (clampedBox W H p) p.bleedCnts cfg.bleedMin = (true, some bb) →
      ∃ s b, (s = Status.person ∨ s = Status.unconscious) ∧
        personRecords W H cfg p = [⟨s, b⟩, ⟨Status.bleeding, clampBoxZ bb W H⟩]) ∧
    (∀ (p : PersonObs) (rest : List PersonObs),
      process_frame W H cfg (p :: rest) =
        (if p.cls = 0 then personRecords W H cfg p else []) ++ process_frame W H cfg rest) ∧
    process_frame 200 200 defaultCfg [scenarioC] =
      [⟨Status.person, (50, 20, 100, 120)⟩, ⟨Status.bleeding, (60, 30, 65, 35)⟩] := by
  refine ⟨?_, ?_, scenarioC_records⟩
  · intro p bb hshow hbl
    have hbr := bleedRecords_eval W H cfg p bb hbl
    cases hfl : unconscious_flag W H cfg p with
    | true =>
      rcases hfb : get_face_bbox_in_roi ((clampedBox W H p).2.2.1 - (clampedBox W H p).1)
          ((clampedBox W H p).2.2.2 - (clampedBox W H p).2.1) p.faceRes with _ | fb
      · exact ⟨Status.unconscious, clampedBox W H p, Or.inr rfl,
          by simp [personRecords, statusRecords, hfl, hfb, hbr]⟩
      · exact ⟨Status.unconscious,
          ((clampedBox W H p).1 + fb.1, (clampedBox W H p).2.1 + fb.2.1,
            (clampedBox W H p).1 + fb.2.2.1, (clampedBox W H p).2.1 + fb.2.2.2),
          Or.inr rfl, by simp [personRecords, statusRecords, hfl, hfb, hbr]⟩
    | false =>
      exact ⟨Status.person, clampedBox W H p, Or.inl rfl,
        by rw [personRecords_eval_normal W H cfg p hfl hshow, hbr]⟩
  · intro p rest
    simp [process_frame]

/-- C7 (witness): the append rule applied to the scenario-C person. -/
theorem C7_witness :
    ∃ s b, (s = Status.person ∨ s = Status.unconscious) ∧
      personRecords 200 200 defaultCfg scenarioC =
        [⟨s, b⟩, ⟨Status.bleeding, clampBoxZ (60, 30, 65, 35) 200 200⟩] :=
  (C7_bleeding_record_appended 200 200 defaultCfg).1 scenarioC (60, 30, 65, 35) rfl
    scenarioC_bleed

/-! ### Claim C10 -/

/-- C10: with `show_person_box` off, a person not classified unconscious
produces no person record at all — the frame log omits that person — while the
bleeding record, when bleeding was found, is still emitted; with the flag on
and all thresholds equal, the same person additionally gets the person record,
so the flag changes the structured log contents, not only the drawn
annotations. -/
theorem C10_show_person_box_off (W H : ℤ) (cfg : Cfg) (p : PersonObs)
    (bb : ℤ × ℤ × ℤ × ℤ)
    (hshow : cfg.showPersonBox = false)
    (hflag : unconscious_flag W H cfg p = false)
    (hbl : detect_bleeding W H (clampedBox W H p) p.bleedCnts cfg.bleedMin
      = (true, some bb)) :
    personRecords W H cfg p = [⟨Status.bleeding, clampBoxZ bb W H⟩] ∧
    ∀ cfg2 : Cfg, cfg2.showPersonBox = true → cfg2.bleedMin = cfg.bleedMin →
      cfg2.earThr = cfg.earThr → cfg2.lyAng = cfg.lyAng → cfg2.lyAr = cfg.lyAr →
      personRecords W H cfg2 p =
        [⟨Status.person, clampedBox W H p⟩, ⟨Status.bleeding, clampBoxZ bb W H⟩] := by
  constructor
  · rw [personRecords_eval_hidden W H cfg p hflag hshow, bleedRecords_eval W H cfg p bb hbl]
  · intro cfg2 h2show h2b h2e h2a h2r
    have hfl2 : unconscious_flag W H cfg2 p = false :=
      (unconscious_flag_congr W H cfg cfg2 p h2e h2a h2r).trans hflag
    have hbr2 : bleedRecords W H cfg2 p = [⟨Status.bleeding, clampBoxZ bb W H⟩] := by
      rw [bleedRecords_congr W H cfg cfg2 p h2b, bleedRecords_eval W H cfg p bb hbl]
    rw [personRecords_eval_normal W H cfg2 p hfl2 h2show, hbr2]

/-- C10 (witness): the scenario-C person under the hidden-person-box
configuration: only the bleeding record is emitted. -/
theorem C10_witness :
    personRecords 200 200 noShowCfg scenarioC =
      [⟨Status.bleeding, clampBoxZ (60, 30, 65, 35) 200 200⟩] := by
  have hfl : unconscious_flag 200 200 noShowCfg scenarioC = false :=
    (unconscious_flag_congr 200 200 defaultCfg noShowCfg scenarioC rfl rfl rfl).trans
      scenarioC_flag
  have hbl : detect_bleeding 200 200 (clampedBox 200 200 scenarioC) scenarioC.bleedCnts
      noShowCfg.bleedMin = (true, some (60, 30, 65, 35)) := scenarioC_bleed
  exact (C10_show_person_box_off 200 200 noShowCfg scenarioC (60, 30, 65, 35)
    rfl hfl hbl).1

/-- C1 (witness): a concrete person with a non-empty clamped ROI and no pose
landmarks is flagged unconscious. -/
theorem C1_witness :
    unconscious_flag 100 100 defaultCfg
      ⟨0, (0, 0, 10, 20), none, none, [], false, false, false⟩ = true := by
  have hcb : clampedBox 100 100
      (⟨0, (0, 0, 10, 20), none, none, [], false, false, false⟩ : PersonObs)
      = (0, 0, 10, 20) := by
    show clamp_box 0 0 10 20 100 100 = (0, 0, 10, 20)
    rw [show (0 : ℝ) = ((0 : ℤ) : ℝ) by norm_num,
      show (10 : ℝ) = ((10 : ℤ) : ℝ) by norm_num,
      show (20 : ℝ) = ((20 : ℤ) : ℝ) by norm_num, clamp_box_intCast]
    decide
  exact (C1_no_landmarks_unconscious 100 100 defaultCfg
    ⟨0, (0, 0, 10, 20), none, none, [], false, false, false⟩
    (by rw [hcb]; decide) (by rw [hcb]; decide) rfl).1

/-- C9 (witness): a concrete zero-width clamped box yields the single
normal-person record. -/
theorem C9_witness :
    unconscious_flag 100 100 defaultCfg
        ⟨0, (5, 5, 5, 20), none, none, [], false, false, false⟩ = false ∧
    personRecords 100 100 defaultCfg
        ⟨0, (5, 5, 5, 20), none, none, [], false, false, false⟩
      = [⟨Status.person, (5, 5, 5, 20)⟩] := by
  have hcb : clampedBox 100 100
      (⟨0, (5, 5, 5, 20), none, none, [], false, false, false⟩ : PersonObs)
      = (5, 5, 5, 20) := by
    show clamp_box 5 5 5 20 100 100 = (5, 5, 5, 20)
    rw [show (5 : ℝ) = ((5 : ℤ) : ℝ) by norm_num,
      show (20 : ℝ) = ((20 : ℤ) : ℝ) by norm_num, clamp_box_intCast]
    decide
  have h := C9_empty_roi_person 100 100 defaultCfg
    ⟨0, (5, 5, 5, 20), none, none, [], false, false, false⟩
    rfl (Or.inl (by rw [hcb]; decide))
  exact ⟨h.1, by rw [h.2, hcb]⟩
